import Mathlib

/-!
Shallow embedding of the session store and response annotator of the
Healthcare-chatbot repository (src/assistant.py, src/main.py).

Modelling conventions:
* Timestamps are an abstract monotone clock, modelled as `Nat`; every
  place the source calls a wall-clock "now" takes the instant as an
  explicit parameter.
* The external model provider is an oracle: each exchange receives the
  outcome of the provider call as an `Except String String`
  (error message, or generated reply text).
* The Python `dict` of sessions is an association list with the usual
  dict semantics: assignment replaces the binding of an existing key in
  place, `del` removes it.
* Python functions that return heterogeneous result dicts are modelled
  as inductive result types with one constructor per dict shape.
-/

namespace MedAssist

/-- Role of one turn in the provider-held conversation history. -/
inductive Role where
  | user
  | model
deriving DecidableEq

/-- One turn of the conversation history kept by the provider handle. -/
structure Turn where
  role : Role
  content : String
deriving DecidableEq

/-- Conversation state stored per session id, mirroring the dict built in
`MedicalAssistant.create_session`: the chat handle (its history), the
creation timestamp, the message count, and the last-interaction
timestamp that `get_response` adds after the first successful exchange. -/
structure Session where
  chat : List Turn
  created_at : Nat
  message_count : Nat
  last_interaction : Option Nat
deriving DecidableEq

/-- The `MedicalAssistant` object state: the `initialized` flag and the
session dictionary. -/
structure Assistant where
  initialized : Bool
  sessions : List (String × Session)
deriving DecidableEq

/-- Dictionary lookup: first binding of the key, if any. -/
def storeFind (id : String) : List (String × Session) → Option Session
  | [] => none
  | (k, v) :: rest => if k = id then some v else storeFind id rest

/-- Dictionary assignment: replace the binding of an existing key in
place, otherwise append a new binding. -/
def storeInsert (id : String) (v : Session) :
    List (String × Session) → List (String × Session)
  | [] => [(id, v)]
  | (k, w) :: rest =>
      if k = id then (id, v) :: rest else (k, w) :: storeInsert id v rest

/-- Dictionary deletion: remove every binding of the key (a Python dict
holds at most one, so on well-formed stores this is exactly `del`). -/
def storeErase (id : String) : List (String × Session) → List (String × Session)
  | [] => []
  | (k, w) :: rest =>
      if k = id then storeErase id rest else (k, w) :: storeErase id rest

/-- Whether `needle` is a prefix of the character list. -/
def isPrefixOfChars : List Char → List Char → Bool
  | [], _ => true
  | _ :: _, [] => false
  | a :: as, b :: bs => a == b && isPrefixOfChars as bs

/-- Whether `needle` occurs contiguously anywhere in the character list. -/
def containsChars (needle : List Char) : List Char → Bool
  | [] => isPrefixOfChars needle []
  | b :: bs => isPrefixOfChars needle (b :: bs) || containsChars needle bs

/-- Python `needle in haystack` on strings: contiguous substring test. -/
def strContains (haystack needle : String) : Bool :=
  containsChars needle.toList haystack.toList

/-- Python `text.lower()`: lowercase the string character by character
(the texts involved are ASCII, where this agrees with `str.lower`). -/
def lowercase (s : String) : String :=
  String.mk (s.data.map Char.toLower)

/-- The keyword list of `MedicalAssistant._detect_emergency`, verbatim
from the source, including the mixed-case entry `"go to the ER"`. -/
def emergency_keywords : List String :=
  ["emergency", "911", "urgent care", "immediately",
   "call an ambulance", "go to the ER", "emergency room",
   "life-threatening", "seek immediate", "critical"]

/-- `MedicalAssistant._detect_emergency`: lowercase the response text and
test whether any keyword (as written, not lowercased) occurs in it. -/
def detect_emergency (response_text : String) : Bool :=
  let response_lower := lowercase response_text
  emergency_keywords.any (fun keyword => strContains response_lower keyword)

/-- The emergency vocabulary as the specification writes it, all
lowercase. -/
def spec_vocabulary : List String :=
  ["emergency", "911", "urgent care", "immediately",
   "call an ambulance", "go to the er", "emergency room",
   "life-threatening", "seek immediate", "critical"]

/-- The annotator as the specification words it, for refinement
comparison with `detect_emergency`: case-insensitive substring match of
every vocabulary term against the text. -/
def isEmergency_spec (text : String) : Bool :=
  spec_vocabulary.any (fun term => strContains (lowercase text) (lowercase term))

/-- Result of `MedicalAssistant.create_session`: either the success dict
with session id, status and greeting message, or an error dict. -/
inductive CreateResult where
  | ok (session_id status message : String)
  | err (error message : String)
deriving DecidableEq

/-- Result of `MedicalAssistant.get_response`: the success dict, or an
error dict (the not-initialized and create-failure error dicts carry no
session id, the provider-failure dict does). -/
inductive RespResult where
  | ok (session_id user_message assistant_response : String)
       ( is_emergency : Bool) (timestamp : Nat) (message_count : Nat)
  | err (session_id : Option String) (error message : String)
deriving DecidableEq

/-- Result of `MedicalAssistant.get_session_history`. -/
inductive HistoryResult where
  | ok (session_id : String) (created_at : Nat) (message_count : Nat)
       (history : List (Role × String))
  | err (error : String)
deriving DecidableEq

/-- Result of `MedicalAssistant.end_session`. -/
inductive EndResult where
  | ok (session_id status : String)
  | err (error : String)
deriving DecidableEq

/-- Result of `MedicalAssistant.clear_all_sessions`: the message dict. -/
structure ClearResult where
  message : String
deriving DecidableEq

/-- `MedicalAssistant.create_session`: when initialized, start a fresh
chat handle with empty history and assign
`sessions[session_id] = \x7bchat, created_at = now, message_count = 0\x7d`,
silently overwriting an existing binding. -/
def create_session (a : Assistant) (session_id : String) (now : Nat) :
    Assistant × CreateResult :=
  if a.initialized = false then
    (a, CreateResult.err "Assistant not initialized"
      "Medical assistant is not properly configured. Please check API key.")
  else
    ({ a with
        sessions := storeInsert session_id
          ({ chat := [], created_at := now, message_count := 0,
             last_interaction := none }) a.sessions },
     CreateResult.ok session_id "created"
       "Medical assistant session started. How can I help you today?")

/-- Error-message classification of the except-branch of
`MedicalAssistant.get_response`. -/
def classify_error (error_msg : String) : String :=
  if strContains error_msg "API_KEY_INVALID"
      || strContains (lowercase error_msg) "invalid api key" then
    "Invalid API key. Please check your GEMINI_API_KEY configuration."
  else if strContains (lowercase error_msg) "quota" then
    "API quota exceeded. Please check your Google Cloud billing or wait for quota reset."
  else if strContains (lowercase error_msg) "permission" then
    "Permission denied. Please ensure your API key has access to Gemini API."
  else
    "API Error: " ++ error_msg

/-- The try-block of `MedicalAssistant.get_response`, entered once the
session exists: send the message to the provider; on success append the
user and model turns to the handle history (as the provider chat object
does), increment `message_count`, set `last_interaction`, and build the
success dict; on provider failure leave the session untouched and build
the classified error dict. The `none` branch of the lookup is
unreachable in the source (`self.sessions[session_id]` right after the
session was ensured to exist) and stands for the impossible `KeyError`. -/
def exchange_call (a : Assistant) (session_id user_message : String)
    (provider : Except String String) (now : Nat) : Assistant × RespResult :=
  match storeFind session_id a.sessions with
  | none => (a, RespResult.err none "KeyError" "session lookup failed")
  | some session =>
    match provider with
    | Except.ok text =>
        let updated : Session :=
          { session with
            message_count := session.message_count + 1,
            last_interaction := some now,
            chat := session.chat ++ [⟨Role.user, user_message⟩, ⟨Role.model, text⟩] }
        ({ a with sessions := storeInsert session_id updated a.sessions },
         RespResult.ok session_id user_message text (detect_emergency text)
           now (session.message_count + 1))
    | Except.error e => (a, RespResult.err (some session_id) e (classify_error e))

/-- `MedicalAssistant.get_response`: not-initialized guard, lazy session
creation for an unknown id (propagating a creation error dict), then the
provider exchange. -/
def get_response (a : Assistant) (session_id user_message : String)
    (provider : Except String String) (now : Nat) : Assistant × RespResult :=
  if a.initialized = false then
    (a, RespResult.err none "not_initialized"
      "Medical assistant is not properly configured. Please check your GEMINI_API_KEY.")
  else if (storeFind session_id a.sessions).isNone then
    match create_session a session_id now with
    | (a1, CreateResult.err e m) => (a1, RespResult.err none e m)
    | (a1, CreateResult.ok _ _ _) =>
        exchange_call a1 session_id user_message provider now
  else
    exchange_call a session_id user_message provider now

/-- `MedicalAssistant.get_session_history`: error dict for an unknown
id, otherwise the session metadata plus the handle history rendered as
role/content pairs. -/
def get_session_history (a : Assistant) (session_id : String) : HistoryResult :=
  match storeFind session_id a.sessions with
  | none => HistoryResult.err "Session not found"
  | some session =>
      HistoryResult.ok session_id session.created_at session.message_count
        (session.chat.map (fun t => (t.role, t.content)))

/-- `MedicalAssistant.end_session`: delete the binding when present,
error dict otherwise. -/
def end_session (a : Assistant) (session_id : String) : Assistant × EndResult :=
  match storeFind session_id a.sessions with
  | some _ =>
      ({ a with sessions := storeErase session_id a.sessions },
       EndResult.ok session_id "ended")
  | none => (a, EndResult.err "Session not found")

/-- `MedicalAssistant.clear_all_sessions`: count the sessions, empty the
dict, report the count in the message. -/
def clear_all_sessions (a : Assistant) : Assistant × ClearResult :=
  ({ a with sessions := [] },
   ⟨"Cleared " ++ toString a.sessions.length ++ " sessions"⟩)

/-- Module-level `create_chat_session`: guards the possibly-None global
`medical_assistant` (None when `MedicalAssistant()` raised at import). -/
def create_chat_session (ma : Option Assistant) (session_id : String) (now : Nat) :
    Option Assistant × CreateResult :=
  match ma with
  | none =>
      (none, CreateResult.err "assistant_not_initialized"
        "Medical assistant failed to initialize. Check server logs and API key configuration.")
  | some a =>
      match create_session a session_id now with
      | (a1, r) => (some a1, r)

/-- Module-level `get_medical_response`: guards the possibly-None global. -/
def get_medical_response (ma : Option Assistant) (session_id message : String)
    (provider : Except String String) (now : Nat) : Option Assistant × RespResult :=
  match ma with
  | none =>
      (none, RespResult.err none "assistant_not_initialized"
        "Medical assistant failed to initialize. Check server logs and API key configuration.")
  | some a =>
      match get_response a session_id message provider now with
      | (a1, r) => (some a1, r)

/-- Module-level `get_chat_history`: guards the possibly-None global. -/
def get_chat_history (ma : Option Assistant) (session_id : String) : HistoryResult :=
  match ma with
  | none => HistoryResult.err "Assistant not initialized"
  | some a => get_session_history a session_id

/-- Module-level `end_chat_session`: guards the possibly-None global. -/
def end_chat_session (ma : Option Assistant) (session_id : String) :
    Option Assistant × EndResult :=
  match ma with
  | none => (none, EndResult.err "Assistant not initialized")
  | some a =>
      match end_session a session_id with
      | (a1, r) => (some a1, r)

/-- Outcome of an HTTP handler in main.py: a successful response body,
an `HTTPException` the handler raised deliberately, or an unhandled
Python exception escaping the handler (FastAPI turns it into a generic
500 with no handler-chosen payload). -/
inductive EndpointOutcome (α : Type) where
  | ok (v : α)
  | httpError (status : Nat) (detail : String)
  | crash (exc : String)
deriving DecidableEq

/-- Body of the `/stats` response. -/
structure StatsResponse where
  active_sessions : Nat
  timestamp : Nat
deriving DecidableEq

/-- Handler of `GET /stats`: evaluates `len(medical_assistant.sessions)`
directly on the global with no None guard, so a missing assistant
raises `AttributeError`. -/
def get_stats (ma : Option Assistant) (now : Nat) : EndpointOutcome StatsResponse :=
  match ma with
  | none => EndpointOutcome.crash "AttributeError"
  | some a => EndpointOutcome.ok ⟨a.sessions.length, now⟩

/-- Handler of `POST /admin/clear-sessions`: calls
`medical_assistant.clear_all_sessions()` directly on the global with no
None guard, so a missing assistant raises `AttributeError`. -/
def admin_clear_sessions (ma : Option Assistant) :
    EndpointOutcome (Option Assistant × ClearResult) :=
  match ma with
  | none => EndpointOutcome.crash "AttributeError"
  | some a =>
      match clear_all_sessions a with
      | (a1, r) => EndpointOutcome.ok (some a1, r)

/-- Handler of `GET /session/\x7bid\x7d/history`: any error dict from
`get_chat_history` is mapped to a 404. -/
def get_history_endpoint (ma : Option Assistant) (session_id : String) :
    EndpointOutcome HistoryResult :=
  match get_chat_history ma session_id with
  | HistoryResult.err _ => EndpointOutcome.httpError 404 "Session not found"
  | h => EndpointOutcome.ok h

/-- Session id carried by an exchange result dict. -/
def resultSessionId : RespResult → Option String
  | RespResult.ok sid _ _ _ _ _ => some sid
  | RespResult.err sid _ _ => sid

/-- Message count carried by a successful exchange result dict. -/
def resultMessageCount : RespResult → Option Nat
  | RespResult.ok _ _ _ _ _ n => some n
  | RespResult.err _ _ _ => none

/-- Driver for the testable property on sequential exchanges: run one
successful exchange per list entry (user message, provider reply,
instant), threading the assistant state. -/
def run_exchanges : Assistant → String → List (String × String × Nat) → Assistant
  | a, _, [] => a
  | a, id, (msg, reply, t) :: rest =>
      run_exchanges (get_response a id msg (Except.ok reply) t).1 id rest

/-- Last-interaction value after a run of successful exchanges: the
default before any exchange, then the instant of the last one. -/
def finalInteraction : Option Nat → List (String × String × Nat) → Option Nat
  | d, [] => d
  | _, (_, _, t) :: rest => finalInteraction (some t) rest

/-- Sample session used by concrete witnesses. -/
def sampleSession : Session :=
  { chat := [⟨Role.user, "hello"⟩, ⟨Role.model, "Hi, how can I help?"⟩],
    created_at := 1, message_count := 3, last_interaction := some 2 }

/-- Sample second session used by concrete witnesses. -/
def idleSession : Session :=
  { chat := [], created_at := 4, message_count := 0, last_interaction := none }

/-- Sample initialized assistant with two live sessions. -/
def sampleAssistant : Assistant :=
  { initialized := true, sessions := [("s1", sampleSession), ("s2", idleSession)] }

/-- Sample initialized assistant with no sessions. -/
def freshAssistant : Assistant :=
  { initialized := true, sessions := [] }

/-- Sample exchange script: two successful provider round trips. -/
def sampleExchanges : List (String × String × Nat) :=
  [("I have a headache", "You should rest and monitor your symptoms", 6),
   ("I have severe chest pain", "This may be an emergency - call 911 immediately", 7)]

/-- Looking up the key just assigned yields the assigned value. -/
theorem storeFind_insert_self (id : String) (v : Session)
    (st : List (String × Session)) :
    storeFind id (storeInsert id v st) = some v := by
  induction st with
  | nil => simp [storeInsert, storeFind]
  | cons hd tl ih =>
      obtain ⟨k, w⟩ := hd
      by_cases h : k = id <;> simp [storeInsert, storeFind, h, ih]

/-- Looking up a key after deleting it yields nothing. -/
theorem storeFind_erase_self (id : String) (st : List (String × Session)) :
    storeFind id (storeErase id st) = none := by
  induction st with
  | nil => simp [storeErase, storeFind]
  | cons hd tl ih =>
      obtain ⟨k, w⟩ := hd
      by_cases h : k = id <;> simp [storeErase, storeFind, h, ih]

/-- Deleting one key does not change the lookup of any other key. -/
theorem storeFind_erase_ne (id k : String) (h : k ≠ id)
    (st : List (String × Session)) :
    storeFind k (storeErase id st) = storeFind k st := by
  induction st with
  | nil => simp [storeErase]
  | cons hd tl ih =>
      obtain ⟨k1, w⟩ := hd
      by_cases h1 : k1 = id
      · subst h1
        simp [storeErase, storeFind, Ne.symm h, ih]
      · by_cases h2 : k1 = k <;> simp [storeErase, storeFind, h1, h2, h, ih]

/-- Unfolding of `get_response` on an existing session with a successful
provider call: the session gains the two new turns, the incremented
count and the new last-interaction instant, and the success dict echoes
the id and the new count. -/
theorem get_response_success_step (a : Assistant) (id msg reply : String)
    (t : Nat) (s : Session) (hinit : a.initialized = true)
    (hfind : storeFind id a.sessions = some s) :
    get_response a id msg (Except.ok reply) t =
      ({ a with
          sessions := storeInsert id
            ({ s with
                message_count := s.message_count + 1,
                last_interaction := some t,
                chat := s.chat ++ [⟨Role.user, msg⟩, ⟨Role.model, reply⟩] })
            a.sessions },
       RespResult.ok id msg reply (detect_emergency reply) t
         (s.message_count + 1)) := by
  simp [get_response, hinit, hfind, exchange_call]

/-- Unfolding of `get_response` on an unknown session id with a
successful provider call: the session is lazily created and then
updated, so it ends with exactly the two new turns and count one. -/
theorem get_response_success_fresh (a : Assistant) (id msg reply : String)
    (t : Nat) (hinit : a.initialized = true)
    (hfind : storeFind id a.sessions = none) :
    get_response a id msg (Except.ok reply) t =
      ({ a with
          sessions := storeInsert id
            ({ chat := [⟨Role.user, msg⟩, ⟨Role.model, reply⟩],
               created_at := t, message_count := 1,
               last_interaction := some t })
            (storeInsert id
              ({ chat := [], created_at := t, message_count := 0,
                 last_interaction := none }) a.sessions) },
       RespResult.ok id msg reply (detect_emergency reply) t 1) := by
  simp [get_response, hinit, hfind, create_session, exchange_call,
    storeFind_insert_self]

/-- A run of successful exchanges preserves the initialized flag, keeps
the session present, adds the run length to its message count, keeps its
creation instant, and leaves its last interaction at the instant of the
last exchange of the run (or its old value for an empty run). -/
theorem run_exchanges_spec (L : List (String × String × Nat)) :
    ∀ (a : Assistant) (id : String) (s : Session),
      a.initialized = true →
      storeFind id a.sessions = some s →
      (run_exchanges a id L).initialized = true ∧
      ∃ s', storeFind id (run_exchanges a id L).sessions = some s' ∧
        s'.message_count = s.message_count + L.length ∧
        s'.created_at = s.created_at ∧
        s'.last_interaction = finalInteraction s.last_interaction L := by
  induction L with
  | nil =>
      intro a id s h1 h2
      exact ⟨h1, s, h2, by simp [run_exchanges], rfl, rfl⟩
  | cons hd tl ih =>
      intro a id s h1 h2
      obtain ⟨msg, reply, t⟩ := hd
      have hrun : run_exchanges a id ((msg, reply, t) :: tl) =
          run_exchanges (get_response a id msg (Except.ok reply) t).1 id tl := rfl
      rw [hrun, get_response_success_step a id msg reply t s h1 h2]
      obtain ⟨hini, s', hf, hc, hcr, hl⟩ :=
        ih ({ a with
              sessions := storeInsert id
                ({ s with
                    message_count := s.message_count + 1,
                    last_interaction := some t,
                    chat := s.chat ++ [⟨Role.user, msg⟩, ⟨Role.model, reply⟩] })
                a.sessions })
          id _ h1 (storeFind_insert_self id _ a.sessions)
      refine ⟨hini, s', hf, ?_, hcr, ?_⟩
      · rw [hc]; simp; omega
      · rw [hl]; rfl

/-- C1: the annotator is claimed to be a case-insensitive match against
the full vocabulary, and the quoted examples do behave as claimed; but
the source compares the keyword "go to the ER" (kept mixed-case) with
the lowercased reply text, so that keyword can never match: the text
"go to the er" is not flagged by the code although the annotator worded
as in the specification flags it. -/
theorem detect_emergency_keyword_case_divergence :
    detect_emergency "go to the er" = false ∧
    isEmergency_spec "go to the er" = true ∧
    detect_emergency "Go to the ER right away" = false ∧
    isEmergency_spec "Go to the ER right away" = true ∧
    detect_emergency "EMERGENCY" = true ∧
    detect_emergency "emergency" = true ∧
    detect_emergency "routine checkup" = false :=
  ⟨rfl, rfl, rfl, rfl, rfl, rfl, rfl⟩

/-- C2 counterexample: with the global assistant missing, the stats and
bulk-clear handlers do not return a not-configured error result at all;
they dereference the missing global and raise `AttributeError`. -/
theorem stats_and_clear_crash_when_unconfigured :
    get_stats none 0 = EndpointOutcome.crash "AttributeError" ∧
    admin_clear_sessions none = EndpointOutcome.crash "AttributeError" :=
  ⟨rfl, rfl⟩

/-- C2 amended: with the global assistant missing, chat/exchange,
session creation, history, and deletion each return a clear
not-initialized error result without a provider call, while the stats
and bulk-clear handlers instead raise an unhandled `AttributeError`. -/
theorem not_configured_endpoint_behavior (id msg : String)
    (provider : Except String String) (now : Nat) :
    (get_medical_response none id msg provider now).2 =
      RespResult.err none "assistant_not_initialized"
        "Medical assistant failed to initialize. Check server logs and API key configuration." ∧
    (create_chat_session none id now).2 =
      CreateResult.err "assistant_not_initialized"
        "Medical assistant failed to initialize. Check server logs and API key configuration." ∧
    get_chat_history none id = HistoryResult.err "Assistant not initialized" ∧
    (end_chat_session none id).2 = EndResult.err "Assistant not initialized" ∧
    get_stats none now = EndpointOutcome.crash "AttributeError" ∧
    admin_clear_sessions none = EndpointOutcome.crash "AttributeError" :=
  ⟨rfl, rfl, rfl, rfl, rfl, rfl⟩

/-- C3: when the provider call fails on an existing session, the whole
assistant state is unchanged (in particular the message count and the
last interaction of the stored session), and the result is the error
dict carrying the session id, the raw error and its classification. -/
theorem provider_failure_no_mutation (a : Assistant) (id msg e : String)
    (now : Nat) (s : Session) (hinit : a.initialized = true)
    (hfind : storeFind id a.sessions = some s) :
    (get_response a id msg (Except.error e) now).1 = a ∧
    storeFind id (get_response a id msg (Except.error e) now).1.sessions = some s ∧
    (get_response a id msg (Except.error e) now).2 =
      RespResult.err (some id) e (classify_error e) := by
  refine ⟨?_, ?_, ?_⟩ <;> simp [get_response, hinit, hfind, exchange_call]

/-- C3 witness at a concrete store and a quota failure. -/
theorem provider_failure_no_mutation_witness :
    (get_response sampleAssistant "s1" "hi" (Except.error "quota exceeded") 9).1 =
      sampleAssistant ∧
    storeFind "s1"
      (get_response sampleAssistant "s1" "hi" (Except.error "quota exceeded") 9).1.sessions =
      some sampleSession ∧
    (get_response sampleAssistant "s1" "hi" (Except.error "quota exceeded") 9).2 =
      RespResult.err (some "s1") "quota exceeded" (classify_error "quota exceeded") :=
  provider_failure_no_mutation sampleAssistant "s1" "hi" "quota exceeded" 9
    sampleSession rfl rfl

/-- C4: creating a session under an id that is already bound raises no
uniqueness error: it returns the success dict and overwrites the
binding with a fresh session of empty history, count zero and the
current instant as creation time. -/
theorem create_session_overwrites (a : Assistant) (id : String) (t : Nat)
    (old : Session) (hinit : a.initialized = true)
    (_hfind : storeFind id a.sessions = some old) :
    (create_session a id t).2 =
      CreateResult.ok id "created"
        "Medical assistant session started. How can I help you today?" ∧
    storeFind id (create_session a id t).1.sessions =
      some { chat := [], created_at := t, message_count := 0,
             last_interaction := none } := by
  refine ⟨?_, ?_⟩ <;> simp [create_session, hinit, storeFind_insert_self]

/-- C4 witness: overwriting the live session "s1". -/
theorem create_session_overwrites_witness :
    (create_session sampleAssistant "s1" 8).2 =
      CreateResult.ok "s1" "created"
        "Medical assistant session started. How can I help you today?" ∧
    storeFind "s1" (create_session sampleAssistant "s1" 8).1.sessions =
      some { chat := [], created_at := 8, message_count := 0,
             last_interaction := none } :=
  create_session_overwrites sampleAssistant "s1" 8 sampleSession rfl rfl

/-- After at least one exchange the running last-interaction value is
never absent. -/
theorem finalInteraction_some_ne_none (L : List (String × String × Nat)) :
    ∀ (t : Nat), finalInteraction (some t) L ≠ none := by
  induction L with
  | nil => intro t; simp [finalInteraction]
  | cons hd tl ih =>
      intro t
      obtain ⟨m, r, u⟩ := hd
      exact ih u

/-- C5: starting from a session created at instant `t0`, a run of
successful exchanges leaves the session with message count equal to the
number of exchanges (each one adds exactly one), an unchanged creation
instant, and a last interaction equal to the instant of the last
exchange (which is set as soon as the run is nonempty). -/
theorem sequential_exchanges_message_count (a : Assistant) (id : String)
    (t0 : Nat) (L : List (String × String × Nat))
    (hinit : a.initialized = true) :
    ∃ s', storeFind id (run_exchanges (create_session a id t0).1 id L).sessions = some s' ∧
      s'.message_count = L.length ∧
      s'.created_at = t0 ∧
      s'.last_interaction = finalInteraction none L ∧
      (L ≠ [] → finalInteraction none L ≠ none) := by
  have h1 : (create_session a id t0).1.initialized = true := by
    simp [create_session, hinit]
  have h2 : storeFind id (create_session a id t0).1.sessions =
      some { chat := [], created_at := t0, message_count := 0,
             last_interaction := none } := by
    simp [create_session, hinit, storeFind_insert_self]
  obtain ⟨hini, s', hf, hc, hcr, hl⟩ := run_exchanges_spec L _ id _ h1 h2
  refine ⟨s', hf, by simpa using hc, hcr, hl, ?_⟩
  intro hne
  cases L with
  | nil => exact absurd rfl hne
  | cons hd tl =>
      obtain ⟨m, r, u⟩ := hd
      exact finalInteraction_some_ne_none tl u

/-- C5 witness: two successful exchanges on a freshly created session
give message count two, creation instant five, last interaction seven. -/
theorem sequential_exchanges_message_count_witness :
    ∃ s', storeFind "s1"
        (run_exchanges (create_session freshAssistant "s1" 5).1 "s1" sampleExchanges).sessions =
        some s' ∧
      s'.message_count = sampleExchanges.length ∧
      s'.created_at = 5 ∧
      s'.last_interaction = finalInteraction none sampleExchanges ∧
      (sampleExchanges ≠ [] → finalInteraction none sampleExchanges ≠ none) :=
  sequential_exchanges_message_count freshAssistant "s1" 5 sampleExchanges rfl

/-- C6: ending a session and then exchanging under the same id yields a
brand-new session: the success dict reports message count one and the
stored session has message count one, regardless of the old count. -/
theorem end_then_exchange_resets_count (a : Assistant) (id msg reply : String)
    (t : Nat) (s : Session) (hinit : a.initialized = true)
    (hfind : storeFind id a.sessions = some s) :
    resultMessageCount
      (get_response (end_session a id).1 id msg (Except.ok reply) t).2 = some 1 ∧
    ∃ s', storeFind id
        (get_response (end_session a id).1 id msg (Except.ok reply) t).1.sessions =
        some s' ∧
      s'.message_count = 1 := by
  have he : (end_session a id).1 = { a with sessions := storeErase id a.sessions } := by
    simp [end_session, hfind]
  rw [he]
  rw [get_response_success_fresh { a with sessions := storeErase id a.sessions }
    id msg reply t hinit (storeFind_erase_self id a.sessions)]
  exact ⟨rfl, _, storeFind_insert_self id _ _, rfl⟩

/-- C6 witness: session "s1" had message count three; after ending it
and exchanging again the count is one. -/
theorem end_then_exchange_resets_count_witness :
    resultMessageCount
      (get_response (end_session sampleAssistant "s1").1 "s1" "hello again"
        (Except.ok "Welcome back") 9).2 = some 1 ∧
    ∃ s', storeFind "s1"
        (get_response (end_session sampleAssistant "s1").1 "s1" "hello again"
          (Except.ok "Welcome back") 9).1.sessions = some s' ∧
      s'.message_count = 1 :=
  end_then_exchange_resets_count sampleAssistant "s1" "hello again"
    "Welcome back" 9 sampleSession rfl rfl

/-- C7: clearing all sessions reports the prior number of sessions in
the message, leaves the store empty, and any subsequent history lookup
answers the not-found error dict. -/
theorem clear_all_sessions_spec (a : Assistant) (id : String) :
    (clear_all_sessions a).2.message =
      "Cleared " ++ toString a.sessions.length ++ " sessions" ∧
    (clear_all_sessions a).1.sessions.length = 0 ∧
    get_session_history (clear_all_sessions a).1 id =
      HistoryResult.err "Session not found" :=
  ⟨rfl, rfl, rfl⟩

/-- C8: a history request for an id absent from the store answers the
not-found error dict, which the HTTP handler maps to a 404; the handler
is a total function, so no unhandled exception is possible. -/
theorem history_unknown_id_not_found (a : Assistant) (id : String)
    (hfind : storeFind id a.sessions = none) :
    get_session_history a id = HistoryResult.err "Session not found" ∧
    get_history_endpoint (some a) id =
      EndpointOutcome.httpError 404 "Session not found" := by
  constructor
  · simp [get_session_history, hfind]
  · simp [get_history_endpoint, get_chat_history, get_session_history, hfind]

/-- C8 witness at an id the sample store does not hold. -/
theorem history_unknown_id_not_found_witness :
    get_session_history sampleAssistant "ghost" =
      HistoryResult.err "Session not found" ∧
    get_history_endpoint (some sampleAssistant) "ghost" =
      EndpointOutcome.httpError 404 "Session not found" :=
  history_unknown_id_not_found sampleAssistant "ghost" rfl

/-- C9: a successful exchange answers a success dict whose session id is
the one passed in and whose message count equals the count stored for
that session right after the operation, on both the existing-session
and the lazily-created path. -/
theorem exchange_result_matches_store (a : Assistant) (id msg reply : String)
    (t : Nat) (hinit : a.initialized = true) :
    ∃ s', storeFind id (get_response a id msg (Except.ok reply) t).1.sessions =
        some s' ∧
      resultMessageCount (get_response a id msg (Except.ok reply) t).2 =
        some s'.message_count ∧
      resultSessionId (get_response a id msg (Except.ok reply) t).2 = some id := by
  cases hfind : storeFind id a.sessions with
  | some s =>
      rw [get_response_success_step a id msg reply t s hinit hfind]
      exact ⟨_, storeFind_insert_self id _ _, rfl, rfl⟩
  | none =>
      rw [get_response_success_fresh a id msg reply t hinit hfind]
      exact ⟨_, storeFind_insert_self id _ _, rfl, rfl⟩

/-- C9 witness on the live session "s1" of the sample store. -/
theorem exchange_result_matches_store_witness :
    ∃ s', storeFind "s1"
        (get_response sampleAssistant "s1" "hi" (Except.ok "rest well") 9).1.sessions =
        some s' ∧
      resultMessageCount
        (get_response sampleAssistant "s1" "hi" (Except.ok "rest well") 9).2 =
        some s'.message_count ∧
      resultSessionId
        (get_response sampleAssistant "s1" "hi" (Except.ok "rest well") 9).2 =
        some "s1" :=
  exchange_result_matches_store sampleAssistant "s1" "hi" "rest well" 9 rfl

/-- C10: ending a session touches no other binding: any other id keeps
the exact value it had; and ending an absent id leaves the whole state
untouched and answers the not-found error dict. -/
theorem end_session_frame (a : Assistant) (id k : String) :
    (k ≠ id → storeFind k (end_session a id).1.sessions = storeFind k a.sessions) ∧
    (storeFind id a.sessions = none →
      (end_session a id).1 = a ∧
      (end_session a id).2 = EndResult.err "Session not found") := by
  constructor
  · intro hk
    cases hfind : storeFind id a.sessions with
    | some s => simp [end_session, hfind, storeFind_erase_ne id k hk]
    | none => simp [end_session, hfind]
  · intro hfind
    simp [end_session, hfind]

/-- C10 witness: ending "s2" leaves "s1" intact, and ending the absent
id "zz" changes nothing and reports not found. -/
theorem end_session_frame_witness :
    storeFind "s1" (end_session sampleAssistant "s2").1.sessions =
      storeFind "s1" sampleAssistant.sessions ∧
    ((end_session sampleAssistant "zz").1 = sampleAssistant ∧
     (end_session sampleAssistant "zz").2 = EndResult.err "Session not found") :=
  ⟨(end_session_frame sampleAssistant "s2" "s1").1 (by decide),
   (end_session_frame sampleAssistant "zz" "zz").2 rfl⟩

end MedAssist
